import Mathlib

/-!
Shallow embedding of `src/await-vercel-deployment/src/index.ts` (current
revision: the one with HTTP 409 handling and in-loop token refresh).

The poller (`pollDeploymentStatus`) is a pure classification of the outcome
of one HTTP request; we embed the request outcome as a `FetchOutcome` value:
either the `fetch` call threw (network/transport failure), or it returned a
response with a numeric HTTP status, a status text, a body text, and the
result of `response.json()` (which may itself fail, modelling a 2xx body
that does not parse as JSON).

The orchestrator (`waitForVercelDeployment`) is embedded as a loop over an
explicit list of per-iteration environment inputs (`IterEnv`), with
wall-clock time threaded as an integer that advances only at the suspension
points the code has: the token-refresh request, the status request, and the
fixed inter-poll sleep.  The loop additionally returns a trace of the polls
it performed (`PollRecord`), so that temporal claims about which credential
each poll used can be stated.
-/

namespace EndformActions

/-- The JSON response shape of the deployment status service.  In the
TypeScript source `status` is a union of string literals, but the value of
`response.json()` is cast unchecked, so any string can arrive; we embed
`status` as `String`.  `deploymentURL` is `string | null`; `none` models
null/absent. -/
structure DeploymentStatusResponse where
  deploymentId : String
  status : String
  deploymentURL : Option String
deriving Repr, DecidableEq

/-- The discriminated union returned by a single poll attempt. -/
inductive PollResult where
  | success (data : DeploymentStatusResponse)
  | cont (reason : String)
  | fatal (error : String)
deriving Repr, DecidableEq

def IN_PROGRESS_STATUSES : List String := ["BUILDING", "INITIALIZING", "QUEUED"]

def FAILED_STATUSES : List String := ["ERROR", "CANCELED"]

/-- JavaScript falsiness of `result.deploymentURL` (a `string | null`):
`!x` is true for `null`/`undefined` and for the empty string. -/
def isFalsyString : Option String → Bool
  | none => true
  | some s => s.isEmpty

/-- `Response.ok` of the Fetch API: status in the inclusive range 200-299. -/
def responseOk (status : Nat) : Bool :=
  decide (200 ≤ status ∧ status ≤ 299)

instance {ε α : Type} [DecidableEq ε] [DecidableEq α] : DecidableEq (Except ε α) := fun a b =>
  match a, b with
  | .error e, .error f =>
    if h : e = f then .isTrue (h ▸ rfl) else .isFalse (fun hc => h (Except.error.inj hc))
  | .error _, .ok _ => .isFalse (fun hc => Except.noConfusion hc)
  | .ok _, .error _ => .isFalse (fun hc => Except.noConfusion hc)
  | .ok x, .ok y =>
    if h : x = y then .isTrue (h ▸ rfl) else .isFalse (fun hc => h (Except.ok.inj hc))

/-- Outcome of the `fetch` call and subsequent body handling inside
`pollDeploymentStatus`: either the request itself threw, or a response
arrived carrying HTTP status, status text, body text, and the result of
parsing the body as `DeploymentStatusResponse` JSON (`Except.error` models a
`response.json()` that throws). -/
inductive FetchOutcome where
  | throws (msg : String)
  | resp (status : Nat) (statusText : String) (body : String)
      (json : Except String DeploymentStatusResponse)
deriving Repr, DecidableEq

/-- Embedding of `pollDeploymentStatus`: classifies one request outcome into
`success` / `cont` / `fatal`, following the source's branch order: thrown
exception, 400, 403, 409, 404, 5xx, other non-2xx, then the parsed body's
deployment status. -/
def pollDeploymentStatus (r : FetchOutcome) : PollResult :=
  match r with
  | .throws msg => .cont ("Error checking deployment status: " ++ msg)
  | .resp status statusText body json =>
    if status = 400 then
      .fatal ("Bad request: " ++ toString status ++ " " ++ statusText ++ "\n" ++ body)
    else if status = 403 then
      .fatal ("Authorization failed: " ++ toString status ++ " " ++ statusText ++ "\n" ++ body)
    else if status = 409 then
      .fatal ("Conflict when fetching deployment status: " ++ toString status ++ " " ++ statusText ++ "\n" ++ body)
    else if status = 404 then
      .cont "Deployment not found yet, waiting for it to be created"
    else if 500 ≤ status ∧ status < 600 then
      .fatal ("Server error: " ++ toString status ++ " " ++ statusText ++ "\n" ++ body)
    else if responseOk status then
      match json with
      | .error msg => .cont ("Error checking deployment status: " ++ msg)
      | .ok result =>
        if result.status = "READY" then
          if isFalsyString result.deploymentURL then
            .fatal "Deployment is ready but no URL was provided"
          else
            .success result
        else if FAILED_STATUSES.contains result.status then
          .fatal ("Deployment failed with status: " ++ result.status)
        else if IN_PROGRESS_STATUSES.contains result.status then
          .cont ("Deployment status: " ++ result.status)
        else
          .cont ("Unknown deployment status: " ++ result.status)
    else
      .cont ("API request failed: " ++ toString status ++ " " ++ statusText ++ "\n" ++ body)

example :
    pollDeploymentStatus (.resp 200 "OK" ""
      (.ok ⟨"d1", "READY", some "https://example.vercel.app"⟩)) =
    .success ⟨"d1", "READY", some "https://example.vercel.app"⟩ := by decide

example :
    pollDeploymentStatus (.resp 200 "OK" "" (.ok ⟨"d1", "READY", some ""⟩)) =
    .fatal "Deployment is ready but no URL was provided" := by decide

example :
    pollDeploymentStatus (.resp 200 "OK" "" (.ok ⟨"d1", "PENDING_REVIEW", none⟩)) =
    .cont "Unknown deployment status: PENDING_REVIEW" := by decide

example :
    pollDeploymentStatus (.resp 404 "Not Found" "nope" (.error "x")) =
    .cont "Deployment not found yet, waiting for it to be created" := by decide

example :
    pollDeploymentStatus (.resp 503 "Service Unavailable" "oops" (.error "x")) =
    .fatal "Server error: 503 Service Unavailable\noops" := by decide

/-- A bearer token with its absolute expiry time.  `expiresAt` is a Unix
timestamp in milliseconds; JS timestamps are embedded as `Int`. -/
structure TokenWithExpiry where
  token : String
  expiresAt : Int
deriving Repr, DecidableEq

/-- `REFRESH_BUFFER_MS = 30 * 1000`, from `shouldRefreshToken`. -/
def REFRESH_BUFFER_MS : Int := 30 * 1000

/-- Embedding of `shouldRefreshToken`: true iff the time until expiry,
measured from `now` (the source reads `Date.now()`), is at most the 30-second
refresh buffer. -/
def shouldRefreshToken (tokenWithExpiry : TokenWithExpiry) (now : Int) : Bool :=
  decide (tokenWithExpiry.expiresAt - now ≤ REFRESH_BUFFER_MS)

/-- Embedding of `getValidToken`: if the current token needs refresh, the
result of `createTokenWithExpiry()` (an external acquisition that may throw,
embedded as `acquire`) replaces it; otherwise the current token is returned
unchanged. -/
def getValidToken (currentToken : TokenWithExpiry) (now : Int)
    (acquire : Except String TokenWithExpiry) : Except String TokenWithExpiry :=
  if shouldRefreshToken currentToken now then acquire else .ok currentToken

/-- A JSON claim value as far as `getTokenExpiry` inspects it: either a JS
number (embedded as `Int`; the source's falsiness check `!payload.exp` makes
the value `0` relevant) or any non-number JSON value. -/
inductive JwtClaimValue where
  | num (n : Int)
  | other
deriving Repr, DecidableEq

/-- The decoded JWT payload as far as `getTokenExpiry` inspects it: the
optional `exp` claim (`none` models a payload without `exp`). -/
structure JwtPayload where
  exp : Option JwtClaimValue
deriving Repr, DecidableEq

/-- JS `token.split(".")`: splits on every dot, preserving empty segments. -/
def splitDotAux : List Char → List Char → List String
  | [], acc => [String.mk acc.reverse]
  | c :: cs, acc =>
    if c = '.' then String.mk acc.reverse :: splitDotAux cs []
    else splitDotAux cs (c :: acc)

def splitDot (s : String) : List String :=
  splitDotAux s.toList []

/-- Embedding of `getTokenExpiry`.  The base64url-decode plus `JSON.parse`
of the middle segment is an external computation, embedded as the `decode`
argument (`Except.error` models a throw, e.g. malformed base64 or JSON).
The source checks `!payload.exp || typeof payload.exp !== "number"`, so a
numeric `exp` of `0` (falsy in JS) is rejected just like a missing or
non-numeric one.  Any throw inside is re-thrown with the
"Failed to decode token expiry: " message prefix added. -/
def getTokenExpiry (decode : String → Except String JwtPayload)
    (token : String) : Except String Int :=
  let inner : Except String Int :=
    let parts := splitDot token
    if parts.length ≠ 3 then .error "Invalid JWT format"
    else
      match decode (parts.getD 1 "") with
      | .error e => .error e
      | .ok payload =>
        match payload.exp with
        | some (.num n) =>
          if n = 0 then .error "Token does not contain valid exp claim"
          else .ok (n * 1000)
        | _ => .error "Token does not contain valid exp claim"
  match inner with
  | .ok v => .ok v
  | .error e => .error ("Failed to decode token expiry: " ++ e)

example : splitDot "a.b.c" = ["a", "b", "c"] := by decide

example : splitDot "a..c" = ["a", "", "c"] := by decide

example : splitDot "" = [""] := by decide

example :
    getTokenExpiry (fun _ => .ok ⟨some (.num 1700000000)⟩) "h.p.s" =
      .ok 1700000000000 := by decide

example :
    getTokenExpiry (fun _ => .ok ⟨some (.num 5)⟩) "h.p" =
      .error "Failed to decode token expiry: Invalid JWT format" := by decide

example :
    getTokenExpiry (fun _ => .ok ⟨some (.num 0)⟩) "h.p.s" =
      .error "Failed to decode token expiry: Token does not contain valid exp claim" := by
  decide

/-- `POLL_INTERVAL_MS = 5000`. -/
def POLL_INTERVAL_MS : Int := 5000

/-- The external inputs one iteration of the wait loop can consume: the
outcome of `createTokenWithExpiry()` should a refresh be triggered, the time
the refresh request takes, the outcome of the status request, and the time
that request takes.  Durations are only charged at the code's suspension
points. -/
structure IterEnv where
  acquire : Except String TokenWithExpiry
  refreshMs : Int
  fetch : FetchOutcome
  pollMs : Int
deriving Repr, DecidableEq

/-- Observation record of one poll actually performed by the wait loop:
the credential bound at the top of the iteration, the credential the poll
was issued with, the `Date.now()` value of the iteration's refresh check,
whether a refresh happened, and the acquisition outcome the iteration had
available. -/
structure PollRecord where
  entryTok : TokenWithExpiry
  usedTok : TokenWithExpiry
  checkTime : Int
  refreshed : Bool
  acquire : Except String TokenWithExpiry
deriving Repr, DecidableEq

/-- Terminal outcome of `waitForVercelDeployment`.  The source throws plain
`Error`s; the constructors record the throw site (timeout check, fatal poll
result, or token refresh) and `timeoutError` additionally records the
elapsed time observed by the failing check. -/
inductive WaitOutcome where
  | success (r : DeploymentStatusResponse)
  | fatalError (msg : String)
  | timeoutError (elapsedMs : Int) (msg : String)
  | refreshError (msg : String)
  | diverged
deriving Repr, DecidableEq

/-- The timeout error message of `waitForVercelDeployment`. -/
def timeoutMessage (timeoutSeconds : Int) : String :=
  "Timeout waiting for deployment after " ++ toString timeoutSeconds ++ " seconds"

/-- Embedding of the `while (true)` loop of `waitForVercelDeployment`.
`now` is the wall clock at the top of the iteration; it advances by the
refresh duration (when a refresh happens), the poll duration, and the fixed
sleep, matching the code's suspension points.  The list of `IterEnv` bounds
the visible execution (`diverged` is the model's answer when it runs out;
the real loop is unbounded).  Besides the outcome, the trace of performed
polls is returned. -/
def waitLoop (timeoutSeconds startTime : Int) (currentToken : TokenWithExpiry)
    (now : Int) : List IterEnv → WaitOutcome × List PollRecord
  | [] => (.diverged, [])
  | e :: rest =>
    if now - startTime > timeoutSeconds * 1000 then
      (.timeoutError (now - startTime) (timeoutMessage timeoutSeconds), [])
    else
      match getValidToken currentToken now e.acquire with
      | .error msg => (.refreshError msg, [])
      | .ok tok =>
        let rec1 : PollRecord :=
          ⟨currentToken, tok, now, shouldRefreshToken currentToken now, e.acquire⟩
        match pollDeploymentStatus e.fetch with
        | .success d => (.success d, [rec1])
        | .fatal err => (.fatalError err, [rec1])
        | .cont _ =>
          let now1 := now + (if shouldRefreshToken currentToken now then e.refreshMs else 0)
            + e.pollMs + POLL_INTERVAL_MS
          let next := waitLoop timeoutSeconds startTime tok now1 rest
          (next.1, rec1 :: next.2)

/-- Embedding of `waitForVercelDeployment`: captures `startTime = Date.now()`
and enters the loop.  No suspension point lies between the capture of
`startTime` and the first timeout check, so the first check runs at
`now = startTime`. -/
def waitForVercelDeployment (initialToken : TokenWithExpiry)
    (timeoutSeconds startTime : Int) (env : List IterEnv) :
    WaitOutcome × List PollRecord :=
  waitLoop timeoutSeconds startTime initialToken startTime env

example :
    waitForVercelDeployment ⟨"t", 10000000⟩ 600 0
      [⟨.ok ⟨"u", 0⟩, 0, .resp 200 "OK" "" (.ok ⟨"d", "BUILDING", none⟩), 100⟩,
       ⟨.ok ⟨"u", 0⟩, 0, .resp 200 "OK" ""
          (.ok ⟨"d", "READY", some "https://example.vercel.app"⟩), 100⟩] =
    (.success ⟨"d", "READY", some "https://example.vercel.app"⟩,
     [⟨⟨"t", 10000000⟩, ⟨"t", 10000000⟩, 0, false, .ok ⟨"u", 0⟩⟩,
      ⟨⟨"t", 10000000⟩, ⟨"t", 10000000⟩, 5100, false, .ok ⟨"u", 0⟩⟩]) := by decide

example :
    waitForVercelDeployment ⟨"t", 10000⟩ 600 0
      [⟨.error "no oidc", 0, .resp 404 "" "" (.error "x"), 0⟩] =
    (.refreshError "no oidc", []) := by decide

example :
    waitForVercelDeployment ⟨"t", 10000000⟩ 1 0
      [⟨.ok ⟨"u", 0⟩, 0, .resp 404 "" "" (.error "x"), 10000⟩,
       ⟨.ok ⟨"u", 0⟩, 0, .resp 404 "" "" (.error "x"), 0⟩] =
    (.timeoutError 15000 (timeoutMessage 1),
     [⟨⟨"t", 10000000⟩, ⟨"t", 10000000⟩, 0, false, .ok ⟨"u", 0⟩⟩]) := by decide

/-! ## Helper lemmas -/

theorem responseOk_bounds {status : Nat} (h : responseOk status = true) :
    200 ≤ status ∧ status ≤ 299 := by
  simpa [responseOk] using h

/-- On a 2xx response the HTTP-error guards of `pollDeploymentStatus` are all
skipped and classification proceeds from the parsed body. -/
theorem pollDeploymentStatus_of_ok (status : Nat) (statusText body : String)
    (json : Except String DeploymentStatusResponse) (hok : responseOk status = true) :
    pollDeploymentStatus (.resp status statusText body json) =
      match json with
      | .error msg => .cont ("Error checking deployment status: " ++ msg)
      | .ok result =>
        if result.status = "READY" then
          if isFalsyString result.deploymentURL then
            .fatal "Deployment is ready but no URL was provided"
          else .success result
        else if FAILED_STATUSES.contains result.status then
          .fatal ("Deployment failed with status: " ++ result.status)
        else if IN_PROGRESS_STATUSES.contains result.status then
          .cont ("Deployment status: " ++ result.status)
        else .cont ("Unknown deployment status: " ++ result.status) := by
  obtain ⟨h1, h2⟩ := responseOk_bounds hok
  simp only [pollDeploymentStatus]
  rw [if_neg (by omega), if_neg (by omega), if_neg (by omega), if_neg (by omega),
    if_neg (by omega), if_pos hok]

/-! ## Claim theorems -/

/-- C1: for every 2xx response whose parsed body has `status = READY`, the
poll returns `success` carrying the exact payload if and only if
`deploymentURL` is present and non-empty; when it is absent or empty the
poll returns the "ready but no URL" fatal error instead. -/
theorem poll_ready_success_iff_url (status : Nat) (statusText body : String)
    (result : DeploymentStatusResponse)
    (hok : responseOk status = true) (hready : result.status = "READY") :
    (pollDeploymentStatus (.resp status statusText body (.ok result)) =
        if isFalsyString result.deploymentURL then
          .fatal "Deployment is ready but no URL was provided"
        else .success result)
    ∧ (pollDeploymentStatus (.resp status statusText body (.ok result)) =
          .success result ↔ isFalsyString result.deploymentURL = false) := by
  have h := pollDeploymentStatus_of_ok status statusText body (.ok result) hok
  refine ⟨by simpa [hready] using h, ?_⟩
  cases hf : isFalsyString result.deploymentURL with
  | true => simp [hready, hf] at h; simp [h]
  | false => simp [hready, hf] at h; simp [h]

theorem poll_ready_success_iff_url_witness :
    (pollDeploymentStatus (.resp 200 "OK" ""
        (.ok ⟨"d1", "READY", some "https://example.vercel.app"⟩)) =
        if isFalsyString (some "https://example.vercel.app") then
          .fatal "Deployment is ready but no URL was provided"
        else .success ⟨"d1", "READY", some "https://example.vercel.app"⟩)
    ∧ (pollDeploymentStatus (.resp 200 "OK" ""
          (.ok ⟨"d1", "READY", some "https://example.vercel.app"⟩)) =
          .success ⟨"d1", "READY", some "https://example.vercel.app"⟩ ↔
        isFalsyString (some "https://example.vercel.app") = false) :=
  poll_ready_success_iff_url 200 "OK" ""
    ⟨"d1", "READY", some "https://example.vercel.app"⟩ (by decide) (by decide)

/-- C4: for every 2xx response whose parsed body has status `ERROR` or
`CANCELED`, the poll returns a `fatal` whose message is the failed-status
message ending in the literal status value. -/
theorem poll_failed_status_fatal (status : Nat) (statusText body : String)
    (result : DeploymentStatusResponse) (hok : responseOk status = true)
    (hfail : result.status = "ERROR" ∨ result.status = "CANCELED") :
    pollDeploymentStatus (.resp status statusText body (.ok result)) =
        .fatal ("Deployment failed with status: " ++ result.status)
    ∧ ∃ p, "Deployment failed with status: " ++ result.status = p ++ result.status := by
  have h := pollDeploymentStatus_of_ok status statusText body (.ok result) hok
  have hready : ¬(result.status = "READY") := by
    rcases hfail with hf | hf <;> simp [hf]
  have hmem : result.status ∈ FAILED_STATUSES := by
    rcases hfail with hf | hf <;> simp [FAILED_STATUSES, hf]
  refine ⟨?_, ⟨"Deployment failed with status: ", rfl⟩⟩
  simpa [hready, hmem] using h

theorem poll_failed_status_fatal_witness :
    pollDeploymentStatus (.resp 200 "OK" "" (.ok ⟨"d1", "CANCELED", none⟩)) =
        .fatal ("Deployment failed with status: " ++ "CANCELED")
    ∧ ∃ p, "Deployment failed with status: " ++ "CANCELED" = p ++ "CANCELED" :=
  poll_failed_status_fatal 200 "OK" "" ⟨"d1", "CANCELED", none⟩ (by decide) (by decide)

/-- C5: for every 2xx response whose parsed body carries a status outside
the closed set QUEUED / INITIALIZING / BUILDING / READY / ERROR / CANCELED,
the poll returns `cont` with the unknown-status reason, never `fatal`. -/
theorem poll_unknown_status_continues (status : Nat) (statusText body : String)
    (result : DeploymentStatusResponse) (hok : responseOk status = true)
    (hout : result.status ∉
      (["QUEUED", "INITIALIZING", "BUILDING", "READY", "ERROR", "CANCELED"] : List String)) :
    pollDeploymentStatus (.resp status statusText body (.ok result)) =
      .cont ("Unknown deployment status: " ++ result.status) := by
  have h := pollDeploymentStatus_of_ok status statusText body (.ok result) hok
  simp only [List.mem_cons, List.not_mem_nil, or_false, not_or] at hout
  obtain ⟨hq, hi, hb, hr, he, hc⟩ := hout
  simpa [hr, hq, hi, hb, he, hc, FAILED_STATUSES, IN_PROGRESS_STATUSES] using h

theorem poll_unknown_status_continues_witness :
    pollDeploymentStatus (.resp 200 "OK" "" (.ok ⟨"d1", "PENDING_REVIEW", none⟩)) =
      .cont ("Unknown deployment status: " ++ "PENDING_REVIEW") :=
  poll_unknown_status_continues 200 "OK" "" ⟨"d1", "PENDING_REVIEW", none⟩
    (by decide) (by decide)

/-- C3: HTTP 400, 403, 409 and every 5xx status yield a `fatal` whose
message carries the HTTP status and the response body, and a fatal poll
result makes the wait loop stop at that very iteration (no retry): the loop
returns the fatal error and its trace ends with that single poll. -/
theorem poll_fatal_http_codes (status : Nat) (statusText body : String)
    (json : Except String DeploymentStatusResponse)
    (h : status = 400 ∨ status = 403 ∨ status = 409 ∨ (500 ≤ status ∧ status ≤ 599)) :
    (∃ p q, pollDeploymentStatus (.resp status statusText body json) =
        .fatal (p ++ toString status ++ q ++ body))
    ∧ ∀ (ts startTime now : Int) (cur tok : TokenWithExpiry) (e : IterEnv)
        (rest : List IterEnv) (err : String),
        ¬(now - startTime > ts * 1000) →
        getValidToken cur now e.acquire = .ok tok →
        pollDeploymentStatus e.fetch = .fatal err →
        waitLoop ts startTime cur now (e :: rest) =
          (.fatalError err, [⟨cur, tok, now, shouldRefreshToken cur now, e.acquire⟩]) := by
  constructor
  · rcases h with h4 | h4 | h4 | h4
    · subst h4
      refine ⟨"Bad request: ", " " ++ statusText ++ "\n", ?_⟩
      simp [pollDeploymentStatus, String.append_assoc]
    · subst h4
      refine ⟨"Authorization failed: ", " " ++ statusText ++ "\n", ?_⟩
      simp [pollDeploymentStatus, String.append_assoc]
    · subst h4
      refine ⟨"Conflict when fetching deployment status: ", " " ++ statusText ++ "\n", ?_⟩
      simp [pollDeploymentStatus, String.append_assoc]
    · refine ⟨"Server error: ", " " ++ statusText ++ "\n", ?_⟩
      simp only [pollDeploymentStatus]
      rw [if_neg (by omega), if_neg (by omega), if_neg (by omega), if_neg (by omega),
        if_pos (show 500 ≤ status ∧ status < 600 by omega)]
      simp [String.append_assoc]
  · intro ts startTime now cur tok e rest err hto hv hp
    simp only [waitLoop]
    rw [if_neg hto, hv, hp]

theorem poll_fatal_http_codes_witness :
    (∃ p q, pollDeploymentStatus (.resp 503 "Service Unavailable" "oops" (.error "x")) =
        .fatal (p ++ toString 503 ++ q ++ "oops"))
    ∧ waitLoop 600 0 ⟨"t", 999999⟩ 0
        [⟨.ok ⟨"u", 0⟩, 0, .resp 503 "Service Unavailable" "oops" (.error "x"), 0⟩] =
      (.fatalError "Server error: 503 Service Unavailable\noops",
       [⟨⟨"t", 999999⟩, ⟨"t", 999999⟩, 0, shouldRefreshToken ⟨"t", 999999⟩ 0, .ok ⟨"u", 0⟩⟩]) :=
  ⟨(poll_fatal_http_codes 503 "Service Unavailable" "oops" (.error "x") (by decide)).1,
   (poll_fatal_http_codes 503 "Service Unavailable" "oops" (.error "x") (by decide)).2
     600 0 0 ⟨"t", 999999⟩ ⟨"t", 999999⟩
     ⟨.ok ⟨"u", 0⟩, 0, .resp 503 "Service Unavailable" "oops" (.error "x"), 0⟩ []
     "Server error: 503 Service Unavailable\noops" (by decide) (by decide) (by decide)⟩

/-- C6: HTTP 404 yields `cont` regardless of body content, and every other
non-2xx HTTP status outside the fatal set {400, 403, 409} ∪ [500, 599]
also yields `cont`. -/
theorem poll_transient_http_codes (status : Nat) (statusText body : String)
    (json : Except String DeploymentStatusResponse) :
    (pollDeploymentStatus (.resp 404 statusText body json) =
        .cont "Deployment not found yet, waiting for it to be created")
    ∧ (responseOk status = false → status ≠ 400 → status ≠ 403 → status ≠ 409 →
        ¬(500 ≤ status ∧ status ≤ 599) →
        ∃ r, pollDeploymentStatus (.resp status statusText body json) = .cont r) := by
  constructor
  · simp [pollDeploymentStatus]
  · intro hok h400 h403 h409 h5xx
    by_cases h404 : status = 404
    · subst h404
      exact ⟨"Deployment not found yet, waiting for it to be created",
        by simp [pollDeploymentStatus]⟩
    · refine ⟨"API request failed: " ++ toString status ++ " " ++ statusText ++ "\n" ++ body, ?_⟩
      simp only [pollDeploymentStatus]
      rw [if_neg h400, if_neg h403, if_neg h409, if_neg h404, if_neg (by omega),
        if_neg (by simp [hok])]

theorem poll_transient_http_codes_witness :
    (pollDeploymentStatus (.resp 404 "Not Found" "whatever" (.error "x")) =
        .cont "Deployment not found yet, waiting for it to be created")
    ∧ ∃ r, pollDeploymentStatus (.resp 418 "Not Found" "whatever" (.error "x")) = .cont r :=
  ⟨(poll_transient_http_codes 418 "Not Found" "whatever" (.error "x")).1,
   (poll_transient_http_codes 418 "Not Found" "whatever" (.error "x")).2
     (by decide) (by decide) (by decide) (by decide) (by decide)⟩

/-- C7: `shouldRefreshToken` is true exactly when at most 30000 ms remain
until expiry; the boundary is closed: exactly 30000 ms remaining triggers a
refresh, 30001 ms remaining does not. -/
theorem shouldRefreshToken_iff_boundary :
    (∀ (c : TokenWithExpiry) (now : Int),
        shouldRefreshToken c now = true ↔ c.expiresAt - now ≤ 30000)
    ∧ (∀ (c : TokenWithExpiry) (now : Int), c.expiresAt - now = 30000 →
        shouldRefreshToken c now = true)
    ∧ (∀ (c : TokenWithExpiry) (now : Int), c.expiresAt - now = 30001 →
        shouldRefreshToken c now = false) := by
  refine ⟨fun c now => ?_, fun c now h => ?_, fun c now h => ?_⟩ <;>
    simp [shouldRefreshToken, REFRESH_BUFFER_MS] <;> omega

theorem shouldRefreshToken_iff_boundary_witness :
    (shouldRefreshToken ⟨"t", 30000⟩ 0 = true ↔ (30000 : Int) - 0 ≤ 30000)
    ∧ shouldRefreshToken ⟨"t", 30000⟩ 0 = true
    ∧ shouldRefreshToken ⟨"t", 30001⟩ 0 = false :=
  ⟨shouldRefreshToken_iff_boundary.1 ⟨"t", 30000⟩ 0,
   shouldRefreshToken_iff_boundary.2.1 ⟨"t", 30000⟩ 0 (by decide),
   shouldRefreshToken_iff_boundary.2.2 ⟨"t", 30001⟩ 0 (by decide)⟩

/-- C10: the poller is total over failures: a thrown `fetch` (network or
transport failure) and a 2xx body that fails to parse both come back as
`cont` with a transient reason; and every poll outcome is one of the three
variants success / cont / fatal (the embedding of the poller is a total
function — it never raises). -/
theorem poll_total_over_failures :
    (∀ msg, pollDeploymentStatus (.throws msg) =
        .cont ("Error checking deployment status: " ++ msg))
    ∧ (∀ (status : Nat) (statusText body msg : String), responseOk status = true →
        pollDeploymentStatus (.resp status statusText body (.error msg)) =
          .cont ("Error checking deployment status: " ++ msg))
    ∧ (∀ f : FetchOutcome, (∃ d, pollDeploymentStatus f = .success d) ∨
        (∃ r, pollDeploymentStatus f = .cont r) ∨
        (∃ m, pollDeploymentStatus f = .fatal m)) := by
  refine ⟨fun msg => rfl, fun status statusText body msg hok => ?_, fun f => ?_⟩
  · simpa using pollDeploymentStatus_of_ok status statusText body (.error msg) hok
  · rcases hr : pollDeploymentStatus f with d | r | m
    · exact .inl ⟨d, rfl⟩
    · exact .inr (.inl ⟨r, rfl⟩)
    · exact .inr (.inr ⟨m, rfl⟩)

theorem poll_total_over_failures_witness :
    pollDeploymentStatus (.resp 200 "OK" "not json" (.error "Unexpected token")) =
      .cont ("Error checking deployment status: " ++ "Unexpected token") :=
  poll_total_over_failures.2.1 200 "OK" "not json" "Unexpected token" (by decide)

/-- Helper: whenever the wait loop ends in the timeout outcome, the elapsed
time it recorded at the failing top-of-iteration check strictly exceeds the
millisecond budget, and the message is the orchestrator's timeout message. -/
theorem waitLoop_timeout_elapsed (ts startTime : Int) :
    ∀ (env : List IterEnv) (cur : TokenWithExpiry) (now e : Int) (m : String),
      (waitLoop ts startTime cur now env).1 = .timeoutError e m →
      e > ts * 1000 ∧ m = timeoutMessage ts := by
  intro env
  induction env with
  | nil => intro cur now e m h; simp [waitLoop] at h
  | cons a rest ih =>
    intro cur now e m h
    simp only [waitLoop] at h
    by_cases hto : now - startTime > ts * 1000
    · rw [if_pos hto] at h
      have h2 : WaitOutcome.timeoutError (now - startTime) (timeoutMessage ts) =
          .timeoutError e m := h
      injection h2 with he hm
      exact ⟨he ▸ hto, hm.symm⟩
    · rw [if_neg hto] at h
      rcases hv : getValidToken cur now a.acquire with msg | tok
      · rw [hv] at h; simp at h
      · rw [hv] at h
        rcases hp : pollDeploymentStatus a.fetch with d | r | err <;> rw [hp] at h
        · simp at h
        · simp only [Prod.fst] at h
          exact ih tok _ e m (by simpa using h)
        · simp at h

/-- C2: the wait ends in the timeout outcome only when the elapsed
wall-clock time observed at a top-of-iteration check strictly exceeds the
budget `timeoutSeconds * 1000` ms, with the orchestrator's own timeout
message (the poller's `PollResult` type has no timeout variant at all); and
since no suspension point lies between the capture of `startTime` and the
first check, a positive budget guarantees at least one poll was performed
before the timeout outcome, i.e. the poll trace is non-empty. -/
theorem wait_timeout_only_after_budget (tok : TokenWithExpiry)
    (ts startTime : Int) (env : List IterEnv) (e : Int) (m : String)
    (hts : 0 < ts)
    (h : (waitForVercelDeployment tok ts startTime env).1 = .timeoutError e m) :
    e > ts * 1000 ∧ m = timeoutMessage ts ∧
      (waitForVercelDeployment tok ts startTime env).2 ≠ [] := by
  have h1 := waitLoop_timeout_elapsed ts startTime env tok startTime e m h
  refine ⟨h1.1, h1.2, ?_⟩
  unfold waitForVercelDeployment at h ⊢
  cases env with
  | nil => simp [waitLoop] at h
  | cons a rest =>
    simp only [waitLoop] at h ⊢
    have hto : ¬(startTime - startTime > ts * 1000) := by
      have : (0 : Int) < ts * 1000 := by positivity
      omega
    rw [if_neg hto] at h ⊢
    rcases hv : getValidToken tok startTime a.acquire with msg | tk
    · rw [hv] at h; simp at h
    · rw [hv] at h
      rcases hp : pollDeploymentStatus a.fetch with d | r | err <;> rw [hp] at h
      · simp at h
      · simp
      · simp at h

theorem wait_timeout_only_after_budget_witness :
    (15000 : Int) > 1 * 1000 ∧ timeoutMessage 1 = timeoutMessage 1 ∧
      (waitForVercelDeployment ⟨"t", 10000000⟩ 1 0
        [⟨.ok ⟨"u", 0⟩, 0, .resp 404 "" "" (.error "x"), 10000⟩,
         ⟨.ok ⟨"u", 0⟩, 0, .resp 404 "" "" (.error "x"), 0⟩]).2 ≠ [] :=
  wait_timeout_only_after_budget ⟨"t", 10000000⟩ 1 0
    [⟨.ok ⟨"u", 0⟩, 0, .resp 404 "" "" (.error "x"), 10000⟩,
     ⟨.ok ⟨"u", 0⟩, 0, .resp 404 "" "" (.error "x"), 0⟩]
    15000 (timeoutMessage 1) (by decide) (by decide)

/-- C8: in every iteration the refresh decision is taken, with the clock of
the top-of-iteration check, on the credential bound at iteration entry; when
it says refresh, the poll of that iteration is issued with exactly the
credential the acquisition returned (the binding is replaced before the
poll), and otherwise with the unchanged entry credential; and when a
triggered acquisition fails, the loop ends at once with the refresh error,
performing no poll and no retry. -/
theorem wait_refresh_before_poll :
    (∀ (ts startTime : Int) (cur : TokenWithExpiry) (now : Int)
        (env : List IterEnv) (pr : PollRecord),
        pr ∈ (waitLoop ts startTime cur now env).2 →
        pr.refreshed = shouldRefreshToken pr.entryTok pr.checkTime
        ∧ (pr.refreshed = true → pr.acquire = Except.ok pr.usedTok)
        ∧ (pr.refreshed = false → pr.usedTok = pr.entryTok))
    ∧ (∀ (ts startTime : Int) (cur : TokenWithExpiry) (now : Int) (a : IterEnv)
        (rest : List IterEnv) (msg : String),
        ¬(now - startTime > ts * 1000) →
        shouldRefreshToken cur now = true →
        a.acquire = Except.error msg →
        waitLoop ts startTime cur now (a :: rest) = (.refreshError msg, [])) := by
  constructor
  · intro ts startTime cur now env
    induction env generalizing cur now with
    | nil => intro pr hpr; simp [waitLoop] at hpr
    | cons a rest ih =>
      intro pr hpr
      simp only [waitLoop] at hpr
      by_cases hto : now - startTime > ts * 1000
      · rw [if_pos hto] at hpr
        simp at hpr
      · rw [if_neg hto] at hpr
        rcases hv : getValidToken cur now a.acquire with msg | tok
        · rw [hv] at hpr; simp at hpr
        · rw [hv] at hpr
          have hhead :
              (⟨cur, tok, now, shouldRefreshToken cur now, a.acquire⟩ : PollRecord).refreshed =
                shouldRefreshToken cur now
              ∧ (shouldRefreshToken cur now = true → a.acquire = Except.ok tok)
              ∧ (shouldRefreshToken cur now = false → tok = cur) := by
            refine ⟨rfl, fun hr => ?_, fun hr => ?_⟩
            · rw [getValidToken, if_pos hr] at hv
              exact hv
            · rw [getValidToken, if_neg (by simp [hr])] at hv
              exact (Except.ok.inj hv).symm
          rcases hp : pollDeploymentStatus a.fetch with d | r | err <;> rw [hp] at hpr
          · simp at hpr
            subst hpr
            exact hhead
          · simp at hpr
            rcases hpr with hpr | hpr
            · subst hpr
              exact hhead
            · exact ih tok _ pr hpr
          · simp at hpr
            subst hpr
            exact hhead
  · intro ts startTime cur now a rest msg hto hr hacq
    simp only [waitLoop]
    rw [if_neg hto]
    have hv : getValidToken cur now a.acquire = Except.error msg := by
      rw [getValidToken, if_pos hr, hacq]
    rw [hv]

theorem wait_refresh_before_poll_witness :
    ((⟨⟨"old", 20000⟩, ⟨"new", 999999999⟩, 0, true, .ok ⟨"new", 999999999⟩⟩ : PollRecord).refreshed =
        shouldRefreshToken
          (⟨⟨"old", 20000⟩, ⟨"new", 999999999⟩, 0, true, .ok ⟨"new", 999999999⟩⟩ : PollRecord).entryTok
          (⟨⟨"old", 20000⟩, ⟨"new", 999999999⟩, 0, true, .ok ⟨"new", 999999999⟩⟩ : PollRecord).checkTime
      ∧ ((⟨⟨"old", 20000⟩, ⟨"new", 999999999⟩, 0, true, .ok ⟨"new", 999999999⟩⟩ : PollRecord).refreshed = true →
          (⟨⟨"old", 20000⟩, ⟨"new", 999999999⟩, 0, true, .ok ⟨"new", 999999999⟩⟩ : PollRecord).acquire =
            Except.ok (⟨⟨"old", 20000⟩, ⟨"new", 999999999⟩, 0, true, .ok ⟨"new", 999999999⟩⟩ : PollRecord).usedTok)
      ∧ ((⟨⟨"old", 20000⟩, ⟨"new", 999999999⟩, 0, true, .ok ⟨"new", 999999999⟩⟩ : PollRecord).refreshed = false →
          (⟨⟨"old", 20000⟩, ⟨"new", 999999999⟩, 0, true, .ok ⟨"new", 999999999⟩⟩ : PollRecord).usedTok =
            (⟨⟨"old", 20000⟩, ⟨"new", 999999999⟩, 0, true, .ok ⟨"new", 999999999⟩⟩ : PollRecord).entryTok))
    ∧ waitLoop 600 0 ⟨"old", 20000⟩ 0 [⟨.error "no oidc", 0, .resp 404 "" "" (.error "x"), 0⟩] =
        (.refreshError "no oidc", []) :=
  ⟨wait_refresh_before_poll.1 600 0 ⟨"old", 20000⟩ 0
      [⟨.ok ⟨"new", 999999999⟩, 50, .resp 404 "" "" (.error "x"), 100⟩]
      ⟨⟨"old", 20000⟩, ⟨"new", 999999999⟩, 0, true, .ok ⟨"new", 999999999⟩⟩ (by decide),
   wait_refresh_before_poll.2 600 0 ⟨"old", 20000⟩ 0
      ⟨.error "no oidc", 0, .resp 404 "" "" (.error "x"), 0⟩ [] "no oidc"
      (by decide) (by decide) (by decide)⟩

/-- Decode oracle mapping every segment to a well-formed claim set whose
numeric `exp` is `0` (a perfectly numeric claim, but falsy in JS). -/
def decodeExpZero : String → Except String JwtPayload :=
  fun _ => .ok ⟨some (.num 0)⟩

/-- Decode oracle mapping every segment to a claim set with numeric
`exp = 1700000000`. -/
def decodeExpFixed : String → Except String JwtPayload :=
  fun _ => .ok ⟨some (.num 1700000000)⟩

/-- C9 counterexample: the token `"h.p.s"` has exactly three dot-separated
segments and its middle segment decodes to a well-formed claim set
containing the numeric `exp = 0`, yet `getTokenExpiry` does not return
`exp * 1000 = 0`: the source's falsiness check `!payload.exp` rejects the
numeric value `0`, so it fails with the decode error instead. -/
theorem getTokenExpiry_zero_exp_cex :
    (splitDot "h.p.s").length = 3
    ∧ decodeExpZero ((splitDot "h.p.s").getD 1 "") = .ok ⟨some (.num 0)⟩
    ∧ getTokenExpiry decodeExpZero "h.p.s" ≠ .ok (0 * 1000)
    ∧ getTokenExpiry decodeExpZero "h.p.s" =
        .error "Failed to decode token expiry: Token does not contain valid exp claim" := by
  refine ⟨by decide, by decide, by decide, by decide⟩

/-- C9 amended: for every token of exactly three dot-separated segments
whose middle segment decodes to a claim set with a numeric, non-zero `exp`,
the computed expiry is `exp * 1000`; decoding fails with the decode error
exactly when the segment count is wrong, the decoded content is not
well-formed, or `exp` is missing, non-numeric, or the (falsy) number `0`. -/
theorem getTokenExpiry_characterization
    (decode : String → Except String JwtPayload) (token : String) :
    (∀ n : Int, n ≠ 0 → (splitDot token).length = 3 →
        decode ((splitDot token).getD 1 "") = .ok ⟨some (.num n)⟩ →
        getTokenExpiry decode token = .ok (n * 1000))
    ∧ ((splitDot token).length ≠ 3 →
        getTokenExpiry decode token =
          .error ("Failed to decode token expiry: " ++ "Invalid JWT format"))
    ∧ (∀ e, (splitDot token).length = 3 →
        decode ((splitDot token).getD 1 "") = .error e →
        getTokenExpiry decode token = .error ("Failed to decode token expiry: " ++ e))
    ∧ (∀ payload, (splitDot token).length = 3 →
        decode ((splitDot token).getD 1 "") = .ok payload →
        (∀ n : Int, n ≠ 0 → payload.exp ≠ some (.num n)) →
        getTokenExpiry decode token =
          .error ("Failed to decode token expiry: " ++
            "Token does not contain valid exp claim")) := by
  refine ⟨?_, ?_, ?_, ?_⟩
  · intro n hn hlen hdec
    simp only [getTokenExpiry]
    rw [if_neg (by simp [hlen]), hdec]
    simp [hn]
  · intro hlen
    simp only [getTokenExpiry]
    rw [if_pos hlen]
  · intro e hlen hdec
    simp only [getTokenExpiry]
    rw [if_neg (by simp [hlen]), hdec]
  · intro payload hlen hdec hexp
    simp only [getTokenExpiry]
    rw [if_neg (by simp [hlen]), hdec]
    rcases hpe : payload.exp with _ | c
    · simp [hpe]
    · rcases c with n | _
      · by_cases hn : n = 0
        · subst hn
          simp [hpe]
        · exact absurd hpe (hexp n hn)
      · simp [hpe]

theorem getTokenExpiry_characterization_witness :
    getTokenExpiry decodeExpFixed "h.p.s" = .ok (1700000000 * 1000) :=
  (getTokenExpiry_characterization decodeExpFixed "h.p.s").1 1700000000
    (by decide) (by decide) (by decide)

end EndformActions
